import Mathlib

/-
Verification development for the lantz_drivers repository.

The repository consists of declarative instrument drivers (data: command
templates, value mappings, numeric limits, hook functions) written against the
lantz_core descriptor engine.  The engine itself is not part of this
repository; where a property depends on engine behaviour, the engine step is
modelled from the specification (each such definition carries a doc comment
starting with "Modelled from the spec:").  Everything else is translated
directly from the driver sources.

Numeric values are modelled as rationals: every numeric literal appearing in
the drivers is an exact decimal, and the arithmetic the drivers perform on
them (comparison, multiplication by a decimal literal, max/min) is exact.
-/

set_option maxRecDepth 4096

/-- Python-level error outcomes that the drivers and the (modelled) engine can
produce. -/
inductive PyErr where
  /-- Python TypeError, e.g. calling a two-argument function with one. -/
  | typeErr : PyErr
  /-- Python SyntaxError raised when compiling a malformed expression. -/
  | synErr : PyErr
  /-- Python AttributeError: attribute lookup on a name the class does not
  define. -/
  | attrErr : PyErr
  /-- Python KeyError from a failed dict lookup. -/
  | keyErr (key : String) : PyErr
  /-- Error raised by lantz_core when a channel id is not in the valid set. -/
  | unknownChannel : PyErr
  /-- Error raised when a declared precondition check fails (feature or
  action name, failed condition). -/
  | precondErr (name cond : String) : PyErr
  /-- Error raised when a value is rejected by a limits validator. -/
  | outOfRange : PyErr
  /-- Error raised when the instrument's post-operation check reports a
  fault; carries the device message. -/
  | deviceErr (msg : String) : PyErr
  /-- InvalidCommand raised by check_answer in the attocube driver. -/
  | invalidCmd (msg : String) : PyErr
  /-- VisaIOError with the given error code, re-raised by _wait_for when it
  is not a timeout. -/
  | visaErr (code : Int) : PyErr
  /-- Python ValueError, e.g. float() on a non-numeric string. -/
  | valueErr : PyErr
  deriving DecidableEq, Repr

deriving instance DecidableEq for Except

/-- Shallow embedding of lantz_core.limits.FloatLimitsValidator as the plain
record of its constructor arguments (low, high, step, unit), exactly the
values the drivers pass to it. -/
structure FloatLimitsValidator where
  low : ℚ
  high : ℚ
  step : ℚ
  unit : String
  deriving DecidableEq, Repr

/- ===================================================================== -/
/- Yokogawa 7651 (src/lantz_drivers/yokogawa/model_7651.py)              -/
/- ===================================================================== -/

/-- VOLTAGE_RESOLUTION dict of model_7651.py lines 24-28, mapping a voltage
range to the resolution used as the validator step; a missing key is a
Python KeyError, modelled as none. -/
def VOLTAGE_RESOLUTION (k : ℚ) : Option ℚ :=
  if k = 10e-3 then some 1e-7
  else if k = 100e-3 then some 1e-6
  else if k = 1.0 then some 1e-5
  else if k = 10 then some 1e-4
  else if k = 30 then some 1e-3
  else none

/-- Decode step of the voltage_range get (mapping of model_7651.py lines
81-82, the dict from range value to integer wire token 10e-3: 2, 100e-3: 3,
1.0: 4, 10.0: 5, 30.0: 6): the token extracted from the response is looked
up in the inverse of the declared mapping. -/
def decode_voltage_range (token : String) : Option ℚ :=
  if token = "2" then some 10e-3
  else if token = "3" then some 100e-3
  else if token = "4" then some 1.0
  else if token = "5" then some 10.0
  else if token = "6" then some 30.0
  else none

/-- Translation of Yokogawa7651 _limits_voltage (model_7651.py lines 212-224):
look the current range up in VOLTAGE_RESOLUTION, widen the range by the 1.2
factor (32.0 for the 30 V range) and build the validator. -/
def yoko7651_limits_voltage (voltage_range : ℚ) : Option FloatLimitsValidator :=
  match VOLTAGE_RESOLUTION voltage_range with
  | none => none
  | some res =>
      let ran := if voltage_range ≠ 30.0 then voltage_range * 1.2 else 32.0
      some ⟨-ran, ran, res, "V"⟩

/- ===================================================================== -/
/- Bilt BE2100 (src/lantz_drivers/bilt/cards/be2100.py)                  -/
/- ===================================================================== -/

/-- Translation of BE2100 _limits_voltage (be2100.py lines 109-119): the
bounds combine the selected range with the two saturation features and the
step depends on the range. -/
def be2100_limits_voltage (rng satLow satHigh : ℚ) : FloatLimitsValidator :=
  let low := max (-rng) satLow
  let high := min rng satHigh
  let step : ℚ := if rng == 1.2 then 1.2e-6 else 1.2e-5
  ⟨low, high, step, "V"⟩

/-- Limits declared on the voltage_saturation.low feature (be2100.py line
50-51). -/
def voltage_saturation_low_limits : ℚ × ℚ := (-12, 0)

/-- Limits declared on the voltage_saturation.high feature (be2100.py line
54-55); the declaration says (-12, 0) although the doc comment calls it the
highest allowed voltage and the command is VOLT:SAT:POS. -/
def voltage_saturation_high_limits : ℚ × ℚ := (-12, 0)

/-- Static validation of a value against a plain (low, high) limits pair. -/
def withinLimits (l : ℚ × ℚ) (v : ℚ) : Bool :=
  decide (l.1 ≤ v) && decide (v ≤ l.2)

/-- Values accepted for the BE2100 voltage_range feature (be2100.py line
37-40, values=(1.2, 12)). -/
def be2100_voltage_range_values : List ℚ := [1.2, 12]

/- ===================================================================== -/
/- Mapping-based Value Transforms (C8)                                   -/
/- ===================================================================== -/

/-- Modelled from the spec: encode step of a mapping-based Value Transform
(the lantz_core transform machinery is not part of this repository): the
user value is looked up in the declared dict; a value outside the domain is
a KeyError, modelled as none. -/
def mapEncode (m : List (String × String)) (v : String) : Option String :=
  (m.find? (fun p => p.1 == v)).map (fun p => p.2)

/-- Modelled from the spec: decode step of a single-dict mapping: the wire
token is looked up in the inverse of the declared dict. -/
def mapDecodeInv (m : List (String × String)) (w : String) : Option String :=
  (m.find? (fun p => p.2 == w)).map (fun p => p.1)

/-- Mapping declared on ANCStepper.mode (anc300.py line 167). -/
def anc_mode_mapping : List (String × String) :=
  [("Ground", "gnd"), ("Step", "stp")]

/-- Mapping declared on the GS200 output mode feature (model_gs200.py lines
64-66). -/
def gs200_mode_mapping : List (String × String) :=
  [("voltage", "VOLT"), ("current", "CURR")]

/-- Set-side dict of the mapping pair declared on the Yokogawa 7651 output
function feature (model_7651.py lines 63-67): user value to the wire token
substituted into the setter. -/
def yoko7651_function_set_mapping : List (String × String) :=
  [("Voltage", "1"), ("Current", "5")]

/-- Get-side dict of the same mapping pair: the token extracted from the
response to the user value (used forwards, not inverted). -/
def yoko7651_function_get_mapping : List (String × String) :=
  [("V", "Voltage"), ("A", "Current")]

/- ===================================================================== -/
/- Attocube ANC300 (src/lantz_drivers/attocube/anc300.py)                -/
/- ===================================================================== -/

/-- Split of a character list on the two-character sequence CR LF, the
model of the Python split used throughout the attocube driver. -/
def splitCRLF : List Char → List Char → List String
  | [], acc => [String.mk acc.reverse]
  | '\r' :: '\n' :: rest, acc => String.mk acc.reverse :: splitCRLF rest []
  | c :: rest, acc => splitCRLF rest (c :: acc)

/-- The split applied to a string, matching msg.split of the source. -/
def pySplitCRLF (s : String) : List String := splitCRLF s.data []

/-- Translation of check_answer (anc300.py lines 24-40): when the res flag
of an anc_query is False, the lines of the answer except the last are
joined with spaces and InvalidCommand is raised with that text. -/
def check_answer (res : Bool) (msg : String) : Except PyErr Unit :=
  if !res then
    .error (.invalidCmd (String.intercalate " " ((pySplitCRLF msg).dropLast)))
  else .ok ()

/-- Outcome of one blocking Backend read inside _wait_for: a response
message, a VISA timeout (carrying the elapsed time the loop measures for
that iteration: the read deadline plus the 0.1 s sleep), or a VISA error
with a non-timeout code. -/
inductive ReadOutcome where
  | msg (s : String) : ReadOutcome
  | tmo (elapsed : ℚ) : ReadOutcome
  | visa (code : Int) : ReadOutcome
  deriving DecidableEq, Repr

/-- Translation of ANCModule._wait_for (anc300.py lines 120-134), driven by
a finite trace of read outcomes.  The loop keeps a cumulative time t
starting at 0; while t < timeout it issues a read: on a VISA timeout it
sleeps 0.1 s and adds the measured elapsed time, any other VISA error is
re-raised, and a successful read is passed to check_answer called with a
single argument (line 129) although check_answer takes two, which is a
Python TypeError.  A run needing more reads than the trace holds is
undetermined, modelled as none. -/
def wait_for_loop (timeout : ℚ) : ℚ → List ReadOutcome → Option (Except PyErr Unit)
  | t, [] => if t < timeout then none else some (.ok ())
  | t, r :: rest =>
      if t < timeout then
        match r with
        | .msg _ => some (.error .typeErr)
        | .tmo dt => wait_for_loop timeout (t + dt) rest
        | .visa code => some (.error (.visaErr code))
      else some (.ok ())

/-- The _wait_for entry point: cumulative time starts at t = 0. -/
def wait_for (timeout : ℚ) (reads : List ReadOutcome) : Option (Except PyErr Unit) :=
  wait_for_loop timeout 0 reads

/-- Per-container state visible to the ANC300 model: the feature cache (an
association list from feature name to the cached user-facing value) and the
list of commands sent through the Backend. -/
structure AncState where
  cache : List (String × String)
  sent : List String
  deriving DecidableEq, Repr

/-- Modelled from the spec: clear_cache (the Cache component of the engine,
not part of this repository): the named entries are removed, all others are
untouched. -/
def clear_cache (features : List String) (s : AncState) : AncState :=
  { s with cache := s.cache.filter (fun p => !(features.contains p.1)) }

/-- Translation of ANCModule.read_saved_capacitance (anc300.py lines 74-82):
check the anc_query answer, take the first line of the message, return None
for "?" and otherwise the float of that line.  The Python float builtin is
external and passed in as pyFloat. -/
def read_saved_capacitance (pyFloat : String → Except PyErr ℚ)
    (res : Bool) (msg : String) : Except PyErr (Option ℚ) :=
  match check_answer res msg with
  | .error e => .error e
  | .ok () =>
      let val := (pySplitCRLF msg).headD ""
      if val = "?" then .ok none
      else match pyFloat val with
        | .error e => .error e
        | .ok q => .ok (some q)

/-- Translation of ANCModule.measure_capacitance (anc300.py lines 84-109):
clear the saved_capacitance and mode cache entries, send the setm cap
command; when block is True additionally send capw (via
wait_for_capacitance_measure, lines 111-118), run _wait_for with the given
timeout, then read the saved capacitance with a getc query whose answer is
(getcRes, getcMsg).  The returned value is None when block is False.  The
state records every command sent up to the produced outcome; none stands
for a run the read trace does not determine. -/
def measure_capacitance (pyFloat : String → Except PyErr ℚ) (ch_id : Nat)
    (block : Bool) (timeout : ℚ) (reads : List ReadOutcome)
    (getcRes : Bool) (getcMsg : String) (s : AncState) :
    Option (Except PyErr (Option (Option ℚ)) × AncState) :=
  let s1 := clear_cache ["saved_capacitance", "mode"] s
  let s2 := { s1 with sent := s1.sent ++ ["setm " ++ toString ch_id ++ " cap"] }
  if !block then some (.ok none, s2)
  else
    let s3 := { s2 with sent := s2.sent ++ ["capw " ++ toString ch_id] }
    match wait_for timeout reads with
    | none => none
    | some (.error e) => some (.error e, s3)
    | some (.ok ()) =>
        let s4 := { s3 with sent := s3.sent ++ ["getc " ++ toString ch_id] }
        match read_saved_capacitance pyFloat getcRes getcMsg with
        | .error e => some (.error e, s4)
        | .ok v => some (.ok (some v), s4)

/-- Modelled from the spec: the declarative surface of a Feature the
engine needs for the get/set contract (spec sections 3, 4.1, 4.2): encode
and decode halves of the Value Transform, the fully substituted get/set
commands, and the caching flag. -/
structure FeatureDecl where
  name : String
  encode : String → Option String
  decode : String → Option String
  set_cmd : String → String
  get_cmd : String
  caching_allowed : Bool

/-- Modelled from the spec: Feature set (spec 4.2) for a feature with no
declared checks, no operation-check hook and an empty discard set (the
ANCStepper.mode case): encode the value, send the substituted set command
through the Backend, and on success store the user value in this feature's
cache entry. -/
def feature_set (f : FeatureDecl) (v : String) (s : AncState) :
    Except PyErr AncState :=
  match f.encode v with
  | none => .error (.keyErr v)
  | some w =>
      .ok { cache := (f.name, v) :: s.cache.filter (fun p => !(p.1 == f.name)),
            sent := s.sent ++ [f.set_cmd w] }

/-- Modelled from the spec: Feature get (spec 4.1): when caching is allowed
and the cache holds an entry it is returned unchanged with no Backend
interaction; otherwise the get command is sent, the response decoded and
the value cached. -/
def feature_get (f : FeatureDecl) (response : String) (s : AncState) :
    Except PyErr (String × AncState) :=
  let io : Except PyErr (String × AncState) :=
    match f.decode response with
    | none => .error (.keyErr response)
    | some v =>
        .ok (v, { cache := (f.name, v) ::
                    s.cache.filter (fun p => !(p.1 == f.name)),
                  sent := s.sent ++ [f.get_cmd] })
  if f.caching_allowed then
    match s.cache.lookup f.name with
    | some v => .ok (v, s)
    | none => io
  else io

/-- The ANCStepper mode feature on a channel with ch_id 1, as declared in
the source: base templates getm/setm of anc300.py line 51, the mapping of
line 167, caching allowed (the driver's default). -/
def anc_mode_feature : FeatureDecl :=
  { name := "mode"
  , encode := mapEncode anc_mode_mapping
  , decode := mapDecodeInv anc_mode_mapping
  , set_cmd := fun w => "setm 1 " ++ w
  , get_cmd := "getm 1"
  , caching_allowed := true }

/-- Attribute names defined in the class bodies of ANC300 and the module
classes it instantiates (anc300.py): the class-level assignments, features,
actions and methods, plus the password attribute set in the constructor.
Translated from the source; the point of record is which names exist. -/
def anc300_attributes : List String :=
  ["PROTOCOLES", "DEFAULTS", "anm150", "password", "initialize", "connected",
   "anc_query", "_list_anm150", "_list_modules",
   "serial_number", "mode", "saved_capacitance", "stop_motion",
   "read_output_voltage", "read_saved_capacitance", "measure_capacitance",
   "wait_for_capacitance_measure", "_wait_for", "_post_get_saved_capacitance",
   "frequency", "amplitude", "up_trigger", "down_trigger", "step",
   "wait_for_stepping_end", "_limits_frequency"]

/-- Resolver name the anm150 channel declaration references (anc300.py line
231: channel with first argument the string below). -/
def anm150_resolver_name : String := "_available_anm150"

/-- Modelled from the spec: Channel indexing (spec 4.3): on first access the
engine determines the valid id set by invoking the declared discovery
resolver; looking the resolver name up on a class that does not define it
is a Python AttributeError, an id outside the resolved set raises
UnknownChannelError, an id inside it resolves. -/
def channel_index (attrs : List String) (resolver : String)
    (resolved : List Nat) (id : Nat) : Except PyErr Nat :=
  if attrs.contains resolver then
    if resolved.contains id then .ok id else .error .unknownChannel
  else .error .attrErr

/-- Translation of ANC300._list_modules (anc300.py lines 308-321): when no
memoized list exists, query getser for slots 1 to 7 and remember the slots
whose query succeeded; otherwise reuse the memoized list with no Backend
query.  Returns the module list, the queries issued by this call and the
new memo. -/
def list_modules (present : Nat → Bool) (memo : Option (List Nat)) :
    List Nat × List String × Option (List Nat) :=
  match memo with
  | some mods => (mods, [], some mods)
  | none =>
      let slots : List Nat := [1, 2, 3, 4, 5, 6, 7]
      let mods := slots.filter present
      (mods, slots.map (fun i => "getser " ++ toString i), some mods)

/- ===================================================================== -/
/- Operation-check hooks (C1)                                            -/
/- ===================================================================== -/

/-- Translation of the default_check_operation shared by BN100 (bn100.py
lines 53-58) and KeysightE3631A (model_E3631A.py lines 216-221): read the
first entry (code, msg) of the instrument error queue via read_error and
return (bool(code), msg). -/
def default_check_operation (code : Int) (msg : String) : Bool × String :=
  (code != 0, msg)

/-- Translation of Yokogawa7651's default_check_operation (model_7651.py
lines 200-210), kept as the in-repository witness of the hook convention:
the success flag is True with no message when the status byte reports no
error, and False with the device message on a fault.  The GS200 hook
(model_gs200.py lines 52-59) follows the same convention. -/
def yoko7651_default_check_operation (stb6 stb3 : Bool) : Bool × Option String :=
  if stb6 then (false, some (if stb3 then "Syntax error" else "Overload"))
  else (true, none)

/-- Modelled from the spec: Feature set step (6) (spec 4.2): after the
command exchange the container's operation-check hook is invoked; a hook
reporting failure raises DeviceError carrying the device message and the
feature's cache entry is not written; on success step (7) stores the new
value in the cache.  The convention for the returned pair, (success flag,
message), is the one the Yokogawa hooks in this repository follow. -/
def set_with_check_operation (hook : Bool × String) (v : String)
    (cache : Option String) : Except PyErr Unit × Option String :=
  if hook.1 then (.ok (), some v)
  else (.error (.deviceErr hook.2), cache)

/- ===================================================================== -/
/- Checks ordering (C6)                                                  -/
/- ===================================================================== -/

/-- First condition of the checks string declared on ANCStepper.step
(anc300.py line 169). -/
def step_check_mode : String := "self.mode == \"Step\""

/-- Second condition of the same checks string, exactly as written in the
source: it is missing its closing parenthesis. -/
def step_check_direction : String := "direction in (\"Up\", \"Down\""

/-- The full checks string of ANCStepper.step, the two conditions joined by
a semicolon as in the source. -/
def step_checks : String := step_check_mode ++ ";" ++ step_check_direction

/-- Set-side check declared on the GS200 output voltage feature
(model_gs200.py line 73). -/
def gs200_voltage_set_check : String := "driver.mode == \"voltage\""

/-- Parenthesis balance scan over the characters of a condition: Python
refuses to compile an expression whose parentheses do not balance, and this
is the only fragment of the compiler the development needs. -/
def parenBalance : List Char → Int → Bool
  | [], d => d == 0
  | c :: cs, d =>
      if c = '(' then parenBalance cs (d + 1)
      else if c = ')' then decide (0 < d) && parenBalance cs (d - 1)
      else parenBalance cs d

/-- A condition is compilable only if its parentheses balance. -/
def compilable (s : String) : Bool := parenBalance s.data 0

/-- Modelled from the spec: evaluation of declared checks (spec 4.2 step 1
and 4.5): the conditions are processed in order before any Backend I/O;
each is paired with its truth value under the current container state; a
condition that does not compile is a Python SyntaxError, a false condition
raises PreconditionError naming the feature or action and the condition. -/
def run_checks (name : String) : List (String × Bool) → Except PyErr Unit
  | [] => .ok ()
  | (c, b) :: rest =>
      if !(compilable c) then .error .synErr
      else if !b then .error (.precondErr name c)
      else run_checks name rest

/-- Modelled from the spec: the prefix of the Feature set pipeline (spec
4.2): checks run first (step 1), then the limits validator (step 2), and
only afterwards is the command sent (step 5); any failure leaves the
Backend log untouched. -/
def set_pipeline (name : String) (conds : List (String × Bool))
    (inRange : Bool) (cmd : String) (sent : List String) :
    Except PyErr Unit × List String :=
  match run_checks name conds with
  | .error e => (.error e, sent)
  | .ok () =>
      if !inRange then (.error .outOfRange, sent)
      else (.ok (), sent ++ [cmd])

/- ===================================================================== -/
/- Keysight E3631A post-set hook (C10)                                   -/
/- ===================================================================== -/

/-- Cache entries of the whole E3631A driver, keyed by (channel id, feature
name); the stored value's type is irrelevant to the hook and kept as the
decoded text. -/
def E3631ACaches : Type := List ((String × String) × String)

/-- Lookup of a cache entry. -/
def cacheGet (cs : E3631ACaches) (k : String × String) : Option String :=
  match cs with
  | [] => none
  | p :: rest => if p.1 == k then some p.2 else cacheGet rest k

/-- Removal of one cache entry, the model of clear_cache on one feature of
one channel. -/
def cacheClear (k : String × String) : E3631ACaches → E3631ACaches
  | [] => []
  | p :: rest =>
      if p.1 == k then cacheClear k rest else p :: cacheClear k rest

/-- Translation of _post_setattr_voltage (model_E3631A.py lines 157-165):
the hook appended after a successful voltage set on the channel with the
given id; when the id is not P6V it clears the voltage cache entries of the
P25V and N25V output channels, and does nothing else. -/
def post_setattr_voltage (id : String) (cs : E3631ACaches) : E3631ACaches :=
  if id ≠ "P6V" then
    cacheClear ("P25V", "voltage") (cacheClear ("N25V", "voltage") cs)
  else cs

/-- Sample external float function used by witnesses: the Python float
builtin evaluated at the single point the witness needs. -/
def pyFloat0 : String → Except PyErr ℚ := fun _ => .ok 1.2

/-- Sample driver-wide cache state used by the C10 witness: every output
channel holds a cached voltage. -/
def sampleCaches : E3631ACaches :=
  [(("P25V", "voltage"), "5.0"), (("N25V", "voltage"), "-5.0"),
   (("P6V", "voltage"), "1.0")]

/-- C2, counterexample.  The claim states that after wire token "4" decodes
to 1.0, the recomputed voltage validator has step 1e-3.  On the code the
step for the 1.0 V range is VOLTAGE_RESOLUTION[1.0] = 1e-5, not 1e-3 (1e-3
is the resolution of the 30 V range): the validator recomputed by
_limits_voltage at range 1.0 is (-1.2, 1.2, 1e-5, V). -/
theorem c2_step_claim_refuted :
    decode_voltage_range "4" = some 1.0 ∧
    yoko7651_limits_voltage 1.0 = some ⟨-1.2, 1.2, 1e-5, "V"⟩ ∧
    (1e-5 : ℚ) ≠ 1e-3 := by
  refine ⟨by simp [decode_voltage_range], ?_, by norm_num⟩
  norm_num [yoko7651_limits_voltage, VOLTAGE_RESOLUTION]

/-- C2, amended.  A voltage range get decoding wire token "4" to 1.0 via the
declared mapping leads _limits_voltage to recompute the voltage validator
with bounds (-1.2, 1.2) and step 1e-5 (the VOLTAGE_RESOLUTION entry for the
1.0 V range). -/
theorem c2_range_decode_and_recomputed_limits :
    decode_voltage_range "4" = some 1.0 ∧
    yoko7651_limits_voltage 1.0 =
      some { low := -1.2, high := 1.2, step := 1e-5, unit := "V" } := by
  constructor
  · simp [decode_voltage_range]
  · norm_num [yoko7651_limits_voltage, VOLTAGE_RESOLUTION]

/-- C7.  The claim (and the spec invariant) requires low ≤ high for every
constructed validator, in particular for the one _limits_voltage builds from
voltage_range and the two saturation features.  The code violates it: both
saturation features are declared with limits (-12, 0), so the combination
range 1.2, saturation.low = -1, saturation.high = -5 is reachable (each
value passes its declared limits, 1.2 is an allowed range value), and the
validator it produces has low = -1 > high = -5.  The slip is the (-12, 0)
limits pair on voltage_saturation.high, whose doc comment ("Highest allowed
voltage") and command (VOLT:SAT:POS) call for a non-negative bound. -/
theorem c7_be2100_validator_low_high_inverted :
    withinLimits voltage_saturation_low_limits (-1) = true ∧
    withinLimits voltage_saturation_high_limits (-5) = true ∧
    (1.2 : ℚ) ∈ be2100_voltage_range_values ∧
    (be2100_limits_voltage 1.2 (-1) (-5)).low = -1 ∧
    (be2100_limits_voltage 1.2 (-1) (-5)).high = -5 ∧
    ¬ ((be2100_limits_voltage 1.2 (-1) (-5)).low ≤
        (be2100_limits_voltage 1.2 (-1) (-5)).high) := by
  refine ⟨?_, ?_, ?_, ?_, ?_, ?_⟩ <;>
    norm_num [withinLimits, voltage_saturation_low_limits,
      voltage_saturation_high_limits, be2100_voltage_range_values,
      be2100_limits_voltage]

/-- C1.  On the BN100 and the E3631A the operation-check step is driven by
default_check_operation, which returns (bool(code), msg) for the first
error-queue entry.  Under the hook convention fixed by the repository's own
Yokogawa hooks (success flag True means the operation passed), that flag is
inverted: a clean queue (code 0) makes the set raise DeviceError carrying
the queue message, while a genuine fault (non-zero code, here the SCPI
error -113) is reported as success and the attempted value is written to
the cache.  The claim (raise exactly on a non-zero code) is contradicted by
the code. -/
theorem c1_default_check_operation_inverted :
    default_check_operation 0 "No error" = (false, "No error") ∧
    default_check_operation (-113) "Undefined header" =
      (true, "Undefined header") ∧
    set_with_check_operation (default_check_operation 0 "No error")
      "5.0" (some "4.2") = (.error (.deviceErr "No error"), some "4.2") ∧
    set_with_check_operation (default_check_operation (-113) "Undefined header")
      "5.0" (some "4.2") = (.ok (), some "5.0") ∧
    yoko7651_default_check_operation false false = (true, none) ∧
    yoko7651_default_check_operation true false = (false, some "Overload") := by
  decide

/-- C8, counterexample.  For the Yokogawa 7651 function feature the declared
mapping pair encodes Voltage and Current to the wire tokens "1" and "5",
but the get-side dict decodes only the response tokens "V" and "A", so
decode applied to encode's output is a KeyError rather than the original
value. -/
theorem c8_pair_mapping_roundtrip_fails :
    mapEncode yoko7651_function_set_mapping "Voltage" = some "1" ∧
    mapEncode yoko7651_function_get_mapping "1" = none ∧
    (mapEncode yoko7651_function_set_mapping "Voltage").bind
      (mapEncode yoko7651_function_get_mapping) ≠ some "Voltage" := by
  decide

/-- C8, amended.  The round-trip law decode (encode v) = v holds over the
whole domain of the two single-dict mappings (ANCStepper.mode, GS200 output
mode).  For the Yokogawa 7651 function mapping pair the law fails as
stated; what holds is that the get-side dict is a correspondence onto the
set-side domain: every domain value is the decode of exactly the matching
response token. -/
theorem c8_roundtrip_on_single_mappings :
    (anc_mode_mapping.all fun p =>
      (mapEncode anc_mode_mapping p.1).bind (mapDecodeInv anc_mode_mapping)
        == some p.1) = true ∧
    (gs200_mode_mapping.all fun p =>
      (mapEncode gs200_mode_mapping p.1).bind (mapDecodeInv gs200_mode_mapping)
        == some p.1) = true ∧
    (yoko7651_function_set_mapping.all fun p =>
      yoko7651_function_get_mapping.any fun q => q.2 == p.1) = true ∧
    (yoko7651_function_get_mapping.all fun q =>
      yoko7651_function_set_mapping.any fun p => p.1 == q.2) = true := by
  decide

/-- C4.  The retry logic of _wait_for behaves as claimed on timeouts (retry
while the accumulated time is below the timeout, return without raising
once it is exceeded, even with further responses pending) and on other VISA
errors (propagated immediately).  But when a terminal response IS observed
the loop calls check_answer with a single argument (anc300.py line 129)
although check_answer takes two, so the call raises TypeError instead of
returning control: the third conjunct of the claim is contradicted by the
code. -/
theorem c4_wait_for_raises_on_response :
    wait_for 10 [.tmo 0.6, .msg "OK"] = some (.error .typeErr) ∧
    wait_for 10 [.msg "OK"] = some (.error .typeErr) ∧
    wait_for 10 [.visa 5] = some (.error (.visaErr 5)) ∧
    wait_for 10 [.tmo 6, .tmo 6] = some (.ok ()) ∧
    wait_for 10 [.tmo 6, .tmo 6, .msg "late"] = some (.ok ()) := by
  refine ⟨?_, ?_, ?_, ?_, ?_⟩ <;>
    norm_num [wait_for, wait_for_loop]

/-- C5.  Indexing the anm150 channel can never resolve an id and never
reach UnknownChannelError: the channel declaration names the discovery
resolver "_available_anm150" (anc300.py line 231) but no attribute of that
name is defined anywhere in the file (the defined lister is _list_anm150),
so every indexed access fails with AttributeError whatever the id.  The
one-time memoized discovery the claim describes is _list_modules (getser 1
to 7, then cached), shown in the last two conjuncts, but nothing ever
calls it. -/
theorem c5_anm150_resolver_missing (present : Nat → Bool) (ids : List Nat)
    (id : Nat) :
    anc300_attributes.contains anm150_resolver_name = false ∧
    channel_index anc300_attributes anm150_resolver_name ids id =
      .error .attrErr ∧
    (list_modules present none).2.1 =
      ["getser 1", "getser 2", "getser 3", "getser 4", "getser 5",
       "getser 6", "getser 7"] ∧
    (∀ mods, list_modules present (some mods) = (mods, [], some mods)) := by
  refine ⟨by decide, ?_, by simp [list_modules]; decide,
    fun mods => by simp [list_modules]⟩
  simp [channel_index, anc300_attributes, anm150_resolver_name]

/-- C6.  The GS200 voltage set-check is well formed and, in the modelled
pipeline, a failing check raises PreconditionError naming the feature and
the condition with no Backend I/O even when the value is simultaneously out
of range.  The ANCStepper.step checks string, however, is missing the
closing parenthesis of its second condition (anc300.py line 169): neither
that condition nor the whole string compiles, so a step invocation with
mode "Step" and an invalid direction raises SyntaxError, never the claimed
PreconditionError. -/
theorem c6_step_checks_syntax_error (b : Bool) :
    compilable gs200_voltage_set_check = true ∧
    compilable step_check_mode = true ∧
    compilable step_check_direction = false ∧
    compilable step_checks = false ∧
    run_checks "step" [(step_check_mode, true), (step_check_direction, b)] =
      .error .synErr ∧
    set_pipeline "voltage" [(gs200_voltage_set_check, false)] false
      "INSTR:SELECT 2;VOLT 50" [] =
      (.error (.precondErr "voltage" gs200_voltage_set_check), []) := by
  refine ⟨by decide, by decide, by decide, by decide, ?_, by decide⟩
  cases b <;> decide

/-- C3.  In the modelled engine, a get immediately following a successful
set of a caching-allowed feature is served from the cache: it returns the
just-set value and the state (in particular the Backend log) is untouched,
whatever the Backend would have answered; and the concrete conjunct shows
that for the ANCStepper mode feature on channel 1, setting "Step" sends
exactly the command setm 1 stp and caches "Step". -/
theorem c3_get_after_set_uses_cache (f : FeatureDecl) (v : String)
    (s s' : AncState) (response : String)
    (hc : f.caching_allowed = true)
    (hset : feature_set f v s = .ok s') :
    feature_get f response s' = .ok (v, s') ∧
    feature_set anc_mode_feature "Step" ⟨[], []⟩ =
      .ok { cache := [("mode", "Step")], sent := ["setm 1 stp"] } := by
  refine ⟨?_, by decide⟩
  cases henc : f.encode v with
  | none => simp [feature_set, henc] at hset
  | some w =>
      simp [feature_set, henc] at hset
      subst hset
      simp [feature_get, hc, List.lookup]

/-- Witness for C3, at the ANCStepper mode feature: hypotheses discharged
at the concrete state reached by the set of "Step". -/
theorem c3_get_after_set_uses_cache_witness :
    anc_mode_feature.caching_allowed = true ∧
    feature_set anc_mode_feature "Step" ⟨[], []⟩ =
      .ok { cache := [("mode", "Step")], sent := ["setm 1 stp"] } ∧
    feature_get anc_mode_feature "gnd"
      { cache := [("mode", "Step")], sent := ["setm 1 stp"] } =
      .ok ("Step", { cache := [("mode", "Step")], sent := ["setm 1 stp"] }) :=
  ⟨rfl, by decide,
   (c3_get_after_set_uses_cache anc_mode_feature "Step" ⟨[], []⟩
     { cache := [("mode", "Step")], sent := ["setm 1 stp"] } "gnd"
     rfl (by decide)).1⟩

/-- Helper: clearing a cache key makes its lookup empty. -/
theorem cacheGet_cacheClear_self (k : String × String) (cs : E3631ACaches) :
    cacheGet (cacheClear k cs) k = none := by
  induction cs with
  | nil => rfl
  | cons p rest ih =>
      by_cases h : p.1 == k
      · simpa [cacheClear, h] using ih
      · simpa [cacheClear, h, cacheGet] using ih

/-- Helper: clearing a cache key leaves every other lookup unchanged. -/
theorem cacheGet_cacheClear_other (k k' : String × String)
    (cs : E3631ACaches) (h : k' ≠ k) :
    cacheGet (cacheClear k cs) k' = cacheGet cs k' := by
  induction cs with
  | nil => rfl
  | cons p rest ih =>
      by_cases hp : p.1 == k
      · have hp' : p.1 = k := by simpa using hp
        have hk' : (p.1 == k') = false := by
          rw [hp', beq_eq_false_iff_ne]
          exact fun contra => h contra.symm
        rw [cacheClear]
        simp only [hp, if_true]
        rw [ih]
        rw [cacheGet]
        simp [hk']
      · by_cases hq : p.1 == k'
        · rw [cacheClear]
          simp only [hp, Bool.false_eq_true, if_false]
          rw [cacheGet, cacheGet]
          simp [hq]
        · rw [cacheClear]
          simp only [hp, Bool.false_eq_true, if_false]
          rw [cacheGet, cacheGet]
          simp only [hq, Bool.false_eq_true, if_false]
          exact ih

/-- C10.  After a successful voltage set on an output channel whose id is
not P6V, the post-set hook clears the voltage cache entries of both the
P25V and N25V channels; every cache entry other than those two is
unchanged; and on the P6V channel the hook leaves the whole cache state
identical. -/
theorem c10_post_setattr_voltage_frame (id : String) (k : String × String)
    (cs : E3631ACaches) (hid : id ≠ "P6V")
    (hk1 : k ≠ ("P25V", "voltage")) (hk2 : k ≠ ("N25V", "voltage")) :
    cacheGet (post_setattr_voltage id cs) ("P25V", "voltage") = none ∧
    cacheGet (post_setattr_voltage id cs) ("N25V", "voltage") = none ∧
    cacheGet (post_setattr_voltage id cs) k = cacheGet cs k ∧
    post_setattr_voltage "P6V" cs = cs := by
  have hpost : post_setattr_voltage id cs =
      cacheClear ("P25V", "voltage") (cacheClear ("N25V", "voltage") cs) := by
    simp [post_setattr_voltage, hid]
  refine ⟨?_, ?_, ?_, by simp [post_setattr_voltage]⟩
  · rw [hpost]; exact cacheGet_cacheClear_self _ _
  · rw [hpost, cacheGet_cacheClear_other _ _ _ (by decide)]
    exact cacheGet_cacheClear_self _ _
  · rw [hpost, cacheGet_cacheClear_other _ _ _ hk1,
      cacheGet_cacheClear_other _ _ _ hk2]

/-- Witness for C10, a set on the P25V channel with all three voltage
entries cached and the P6V entry as the untouched frame. -/
theorem c10_post_setattr_voltage_frame_witness :
    ("P25V" : String) ≠ "P6V" ∧
    (("P6V", "voltage") : String × String) ≠ ("P25V", "voltage") ∧
    (("P6V", "voltage") : String × String) ≠ ("N25V", "voltage") ∧
    (cacheGet (post_setattr_voltage "P25V" sampleCaches)
        ("P25V", "voltage") = none ∧
      cacheGet (post_setattr_voltage "P25V" sampleCaches)
        ("N25V", "voltage") = none ∧
      cacheGet (post_setattr_voltage "P25V" sampleCaches) ("P6V", "voltage") =
        cacheGet sampleCaches ("P6V", "voltage") ∧
      post_setattr_voltage "P6V" sampleCaches = sampleCaches) :=
  ⟨by decide, by decide, by decide,
   c10_post_setattr_voltage_frame "P25V" ("P6V", "voltage") sampleCaches
     (by decide) (by decide) (by decide)⟩

/-- C9.  measure_capacitance clears the saved_capacitance and mode cache
entries and sends setm 1 cap (first conjunct, block=False, returning None);
with block=True it additionally sends capw 1 and, when every read times out
until the 10 s default timeout is exceeded, invokes the getc read, whose
decode maps the raw response "?" to None (second conjunct) and any other
response to the float of its first line (third conjunct).  But when a
terminal line IS observed during the wait before the timeout, the
one-argument check_answer call inside _wait_for raises TypeError and
control never reaches read_saved_capacitance (fourth conjunct): that part
of the claim is contradicted by the code. -/
theorem c9_measure_capacitance_paths (pyFloat : String → Except PyErr ℚ)
    (q : ℚ) (hq : pyFloat "1.2" = .ok q) :
    measure_capacitance pyFloat 1 false 10 [] true "?"
      ⟨[("saved_capacitance", "1.0"), ("mode", "Step"), ("frequency", "100")],
       []⟩ =
      some (.ok none, ⟨[("frequency", "100")], ["setm 1 cap"]⟩) ∧
    measure_capacitance pyFloat 1 true 10 [.tmo 12] true "?"
      ⟨[("mode", "Step")], []⟩ =
      some (.ok (some none), ⟨[], ["setm 1 cap", "capw 1", "getc 1"]⟩) ∧
    measure_capacitance pyFloat 1 true 10 [.tmo 12] true "1.2\r\nextra"
      ⟨[], []⟩ =
      some (.ok (some (some q)), ⟨[], ["setm 1 cap", "capw 1", "getc 1"]⟩) ∧
    measure_capacitance pyFloat 1 true 10 [.msg "OK"] true "?" ⟨[], []⟩ =
      some (.error .typeErr, ⟨[], ["setm 1 cap", "capw 1"]⟩) := by
  refine ⟨?_, ?_, ?_, ?_⟩ <;>
    norm_num [measure_capacitance, clear_cache, wait_for, wait_for_loop,
      read_saved_capacitance, check_answer, pySplitCRLF, splitCRLF, hq]
  · decide
  · decide
  · rw [if_neg (by decide)]; rfl
  · decide

/-- Witness for C9 with the sample external float function. -/
theorem c9_measure_capacitance_paths_witness :
    pyFloat0 "1.2" = .ok (1.2 : ℚ) ∧
    (measure_capacitance pyFloat0 1 false 10 [] true "?"
      ⟨[("saved_capacitance", "1.0"), ("mode", "Step"), ("frequency", "100")],
       []⟩ =
      some (.ok none, ⟨[("frequency", "100")], ["setm 1 cap"]⟩) ∧
    measure_capacitance pyFloat0 1 true 10 [.tmo 12] true "?"
      ⟨[("mode", "Step")], []⟩ =
      some (.ok (some none), ⟨[], ["setm 1 cap", "capw 1", "getc 1"]⟩) ∧
    measure_capacitance pyFloat0 1 true 10 [.tmo 12] true "1.2\r\nextra"
      ⟨[], []⟩ =
      some (.ok (some (some (1.2 : ℚ))),
        ⟨[], ["setm 1 cap", "capw 1", "getc 1"]⟩) ∧
    measure_capacitance pyFloat0 1 true 10 [.msg "OK"] true "?" ⟨[], []⟩ =
      some (.error .typeErr, ⟨[], ["setm 1 cap", "capw 1"]⟩)) :=
  ⟨rfl, c9_measure_capacitance_paths pyFloat0 1.2 rfl⟩
